import Mathlib

/-!
Verification of `backend/store/serializers.py` (CraftyCarrot marketplace).

The module is Django-REST-framework serialization code.  We shallowly embed
the relevant pieces:

* Python dicts of validated data become association lists
  `List (String × Value)` with `dictSet`/`dictGet`/`dictUpdate` mirroring
  `d[k] = v`, `d[k]`, `d.update(...)`.
* Exceptions become `Except PyError`; the distinct Python exception classes
  (`KeyError`, `AttributeError`/`RelatedObjectDoesNotExist`,
  `ImproperlyConfigured`, `rest_framework.serializers.ValidationError`,
  storage-layer `DatabaseError`) are distinct `PyError` constructors.
* The database visible to `StoreProfileSerializer.create` becomes an explicit
  `DB` value threaded through the calls; `django.db.transaction.atomic`
  becomes the `atomic` combinator that restores the initial state on error.
* `main.serializers.FlatNestedSerializerMixin` and `store.models` are not part
  of the provided sources; the few operations of theirs that the serializers
  call are modelled from the specification and marked as such.
-/

/-- A persisted `StoreProfile` reference (what `user.profile` resolves to and
what `Product.seller` stores): identified by its primary key. -/
structure Profile where
  pid : Nat
deriving DecidableEq, Repr

/-- The authenticated identity on a request (`request.user`).
`profile` is the zero-or-one reverse one-to-one `StoreProfile`:
`none` models a user for which `user.profile` raises
`RelatedObjectDoesNotExist` and `hasattr(user, 'profile')` is `False`. -/
structure User where
  uid : Nat
  is_authenticated : Bool
  profile : Option Profile
deriving DecidableEq, Repr

/-- An HTTP request as the serializer context sees it. -/
structure Request where
  user : User
deriving DecidableEq, Repr

/-- The serializer context `self.context`: may or may not contain a
`'request'` key. -/
structure Ctx where
  request : Option Request
deriving DecidableEq, Repr

/-- Values stored in a validated-data dict: scalars, a `Profile` reference
(owner field), or a `User` reference (the `'user'` related object). -/
inductive Value where
  | str : String → Value
  | profRef : Profile → Value
  | userRef : Nat → Value
deriving DecidableEq, Repr

/-- The error kinds the serializers can surface, kept distinct the way the
Python exception classes are distinct. -/
inductive PyError where
  | keyError : String → PyError
  | attributeError : PyError
  | improperlyConfigured : String → PyError
  | validationError : String → PyError
  | databaseError : PyError
deriving DecidableEq, Repr

/-- Python `d[k] = v` on a dict: overwrite the value at `k` if present,
otherwise append the new key. -/
def dictSet (d : List (String × Value)) (k : String) (v : Value) :
    List (String × Value) :=
  if d.any (fun kv => kv.1 == k) then
    d.map (fun kv => if kv.1 == k then (k, v) else kv)
  else
    d ++ [(k, v)]

/-- Python `d.get(k)` / `d[k]` lookup. -/
def dictGet (d : List (String × Value)) (k : String) : Option Value :=
  (d.find? (fun kv => kv.1 == k)).map (fun kv => kv.2)

/-- Python `d.update(other)`: set every key of `other` in `d`, in order. -/
def dictUpdate (d : List (String × Value)) (other : List (String × Value)) :
    List (String × Value) :=
  other.foldl (fun acc kv => dictSet acc kv.1 kv.2) d

/-- Configuration of a serializer class that uses `SetOwnProfileMixin`.
`metaProfileFieldName` is `Meta.profile_field_name` when declared; `none`
covers both a missing `Meta` and a `Meta` without the attribute (either way
`getattr(self, 'Meta', None).profile_field_name` raises `AttributeError`).
`overrideFieldName` is `some s` when a subclass overrides
`get_profile_field_name` to return `s`. -/
structure MixinConfig where
  metaProfileFieldName : Option String
  overrideFieldName : Option String
deriving DecidableEq, Repr

/-- `SetOwnProfileMixin.get_profile_field_name`: an override wins (Python
method resolution); otherwise read `Meta.profile_field_name`; if that raises
`AttributeError`, re-raise as `ImproperlyConfigured`. -/
def get_profile_field_name (cfg : MixinConfig) : Except PyError String :=
  match cfg.overrideFieldName with
  | some s => Except.ok s
  | none =>
    match cfg.metaProfileFieldName with
    | some s => Except.ok s
    | none => Except.error (PyError.improperlyConfigured
        "must set Meta.profile_field_name or override get_profile_field_name()")

/-- `SetOwnProfileMixin.__init__`: after `super().__init__`, immediately
calls `get_profile_field_name()`, so a missing declaration raises
`ImproperlyConfigured` while the serializer instance is being constructed,
before any create/update runs. -/
def mixinInit (cfg : MixinConfig) : Except PyError Unit :=
  (get_profile_field_name cfg).map (fun _ => ())

/-- `SetOwnProfileMixin.get_profile_kwargs`:
`user = self.context['request'].user` (a missing `'request'` key raises
`KeyError`), then `{self.get_profile_field_name(): user.profile}` (the key
expression is evaluated first; `user.profile` raises
`RelatedObjectDoesNotExist`, an `AttributeError`, when the user has no
profile). -/
def get_profile_kwargs (cfg : MixinConfig) (ctx : Ctx) :
    Except PyError (List (String × Value)) :=
  match ctx.request with
  | none => Except.error (PyError.keyError "request")
  | some req => do
    let fn ← get_profile_field_name cfg
    match req.user.profile with
    | none => Except.error PyError.attributeError
    | some p => Except.ok [(fn, Value.profRef p)]

/-- `SetOwnProfileMixin.create`: `validated_data.update(self.get_profile_kwargs())`
then delegate to the underlying (`super()`) create. -/
def setOwnProfileCreate {α : Type} (cfg : MixinConfig) (ctx : Ctx)
    (validated : List (String × Value))
    (superCreate : List (String × Value) → Except PyError α) :
    Except PyError α := do
  let kwargs ← get_profile_kwargs cfg ctx
  superCreate (dictUpdate validated kwargs)

/-- A persisted `Product` row: `ModelSerializer.create(validated_data)`
stores exactly the validated fields it is given. -/
structure ProductRec where
  fields : List (String × Value)
deriving DecidableEq, Repr

/-- `ProductNestedSerializer`'s mixin configuration:
`Meta.profile_field_name = 'seller'`, no override. -/
def productMixinConfig : MixinConfig :=
  { metaProfileFieldName := some "seller", overrideFieldName := none }

/-- `ModelSerializer.create` for `Product` (the persistence collaborator):
persists a row holding the validated fields. -/
def productModelCreate (validated : List (String × Value)) :
    Except PyError ProductRec :=
  Except.ok { fields := validated }

/-- `ProductNestedSerializer().create(validated_data)`: the mixin's create
(m.r.o. puts `SetOwnProfileMixin` first) delegating to `ModelSerializer.create`. -/
def productNestedCreate (ctx : Ctx) (validated : List (String × Value)) :
    Except PyError ProductRec :=
  setOwnProfileCreate productMixinConfig ctx validated productModelCreate

/-- The current actor's profile as the spec describes it: `none` when the
request is absent or when the request's user has no profile. -/
def actorProfile (ctx : Ctx) : Option Profile :=
  match ctx.request with
  | none => none
  | some req => req.user.profile

/-- `StoreProfileSerializer.get_is_self(profile)`:
`request = self.context.get('request')`,
`me = getattr(getattr(request, 'user', None), 'profile', None)`,
`return profile == me`.  Total by construction — every `getattr` carries a
default, so no input raises. -/
def get_is_self (ctx : Ctx) (profile : Profile) : Bool :=
  let me : Option Profile :=
    match ctx.request with
    | none => none
    | some req => req.user.profile
  some profile == me

/-- `StoreProfileSerializer.Meta.user_fields`. -/
def user_fields : List String := ["email", "first_name", "last_name"]

/-- `StoreProfileSerializer.Meta.fields`. -/
def storeProfileFields : List String :=
  user_fields ++
    ["id", "is_self", "phone", "city", "address", "person_type", "seller_type",
     "products"]

/-- `StoreProfileSerializer.Meta.read_only_fields`. -/
def storeProfileReadOnlyFields : List String := ["id", "email", "products"]

/-- `StoreProfileCreateSerializer.Meta.fields`:
`tuple(f for f in StoreProfileSerializer.Meta.fields if f != 'products')`. -/
def storeProfileCreateFields : List String :=
  storeProfileFields.filter (fun f => f != "products")

/-- `StoreProfileCreateSerializer.Meta.extra_kwargs`:
`{k: {'required': True} for k in StoreProfileSerializer.Meta.fields
if k not in StoreProfileSerializer.Meta.read_only_fields}`. -/
def storeProfileCreateExtraKwargs : List (String × Bool) :=
  (storeProfileFields.filter
      (fun k => !(storeProfileReadOnlyFields.contains k))).map
    (fun k => (k, true))

/-- `StoreProfileNestedSerializer.Meta.fields`: same comprehension as the
create variant. -/
def storeProfileNestedFields : List String :=
  storeProfileFields.filter (fun f => f != "products")

/-- `ProductNestedSerializer.Meta.fields`; `ProductListSerializer` inherits
this `Meta` unchanged. -/
def productFields : List String :=
  ["id", "category", "category_name", "seller", "title", "unit", "unit_price",
   "quantity", "created", "modified"]

/-- `ProductListSerializer.Meta.fields` (inherited from
`ProductNestedSerializer.Meta`). -/
def productListFields : List String := productFields

/-- `ProductDetailSerializer.Meta.fields =
ProductListSerializer.Meta.fields + ('description',)`. -/
def productDetailFields : List String := productListFields ++ ["description"]

/-- `StoreProfileSerializer.Meta.flatten_fields = {'user': user_fields}`:
the serializer's FlattenSpec. -/
def flatten_fields : List (String × List String) := [("user", user_fields)]

/-- Purely-computed fields of `StoreProfileSerializer`: `is_self` is its one
`SerializerMethodField`. -/
def storeProfileComputedFields : List String := ["is_self"]

/-- Modelled from the spec: the parent's own fields of `StoreProfile`
(`store/models.py` is not among the provided sources, so the model-side
field list cannot be read off the code).  Per the spec a Record carries its
own scalar fields and its related-entity bindings — here `id` (key), the
scalar fields, and `products` (the inverse relation to Product) — while
`email`, `first_name`, `last_name` belong to the related `user` and
`is_self` is purely computed. -/
def storeProfileOwnFields : List String :=
  ["id", "phone", "city", "address", "person_type", "seller_type", "products"]

/-- Modelled from the spec: `FlatNestedSerializerMixin`'s write-path split
(`main/serializers.py` is not among the provided sources).  The incoming
flat payload is split into the parent's remaining own fields and one
sub-payload per flatten group holding exactly that group's declared field
names, which are removed from the parent payload. -/
def splitPayload (groups : List (String × List String))
    (payload : List (String × Value)) :
    List (String × Value) × List (String × List (String × Value)) :=
  (payload.filter (fun kv => !(groups.any (fun g => g.2.contains kv.1))),
   groups.map (fun g => (g.1, payload.filter (fun kv => g.2.contains kv.1))))

/-- Modelled from the spec: the read-path re-merge — each group's
attributes are merged upward into one flat record alongside the parent's
own fields, under their own field names (no renaming). -/
def mergePayload (own : List (String × Value))
    (subs : List (String × List (String × Value))) :
    List (String × Value) :=
  own ++ (subs.map (fun s => s.2)).flatten

/-- A persisted `StoreProfile` row: primary key, owning user's id, and the
remaining validated fields. -/
structure StoreProfileRec where
  spid : Nat
  userId : Nat
  attrs : List (String × Value)
deriving DecidableEq, Repr

/-- The slice of the database that `StoreProfileSerializer.create` touches:
the `User` rows' updatable attributes (the flattened
email/first_name/last_name) keyed by user id, and the `StoreProfile` rows. -/
structure DB where
  userAttrs : List (Nat × List (String × Value))
  storeProfiles : List StoreProfileRec
deriving DecidableEq, Repr

/-- `hasattr(user, 'profile') and user.profile` as the ORM resolves it
inside `StoreProfileSerializer.create`: does a `StoreProfile` row for this
user exist? -/
def userHasProfile (db : DB) (uid : Nat) : Bool :=
  db.storeProfiles.any (fun sp => sp.userId == uid)

/-- Number of `StoreProfile` rows persisted for a given user. -/
def spCountFor (db : DB) (uid : Nat) : Nat :=
  (db.storeProfiles.filter (fun sp => sp.userId == uid)).length

/-- `django.db.transaction.atomic` applied to a state transformer: on
success the writes commit; on an exception every write inside the block is
rolled back — the resulting state is the initial one — and the exception
propagates. -/
def atomic {α : Type} (body : DB → Except PyError α × DB) (db : DB) :
    Except PyError α × DB :=
  match body db with
  | (Except.error e, _) => (Except.error e, db)
  | (Except.ok a, db') => (Except.ok a, db')

/-- Modelled from the spec:
`FlatNestedSerializerMixin._update_flattened_field`
(`main/serializers.py` is not among the provided sources).  Per the spec's
write path, the flatten-group field names (`user_fields`) are removed from
the parent payload and written to the related `user` sub-entity using its
own schema — a related-entity write that happens before the parent write. -/
def update_flattened_field (uid : Nat) (validated : List (String × Value))
    (db : DB) : List (String × Value) × DB :=
  let sub := validated.filter (fun kv => user_fields.contains kv.1)
  let remaining := validated.filter (fun kv => !(user_fields.contains kv.1))
  (remaining,
   { db with
      userAttrs := db.userAttrs.map
        (fun ua => if ua.1 == uid then (ua.1, dictUpdate ua.2 sub) else ua) })

/-- Outcome the storage layer gives the parent `ModelSerializer.create`:
`fails` is an opaque storage-layer failure aborting the transaction (e.g. a
constraint violation), `succeeds i` persists a new row with primary key
`i`. -/
inductive ParentOutcome where
  | fails : ParentOutcome
  | succeeds : Nat → ParentOutcome
deriving DecidableEq, Repr

/-- The parent `super().create(validated_data)` for `StoreProfile`: appends
a new row on success, raises on storage failure. -/
def superCreateStoreProfile (outcome : ParentOutcome) (uid : Nat)
    (validated : List (String × Value)) (db : DB) :
    Except PyError StoreProfileRec × DB :=
  match outcome with
  | ParentOutcome.fails => (Except.error PyError.databaseError, db)
  | ParentOutcome.succeeds i =>
    let row : StoreProfileRec := { spid := i, userId := uid, attrs := validated }
    (Except.ok row, { db with storeProfiles := db.storeProfiles ++ [row] })

/-- The body of `StoreProfileSerializer.create` (everything inside the
`@transaction.atomic` decorator): read `self.context['request'].user`;
reject with `ValidationError` when an authenticated user already has a
profile; `_update_flattened_field` (the related `user` write);
`validated_data.update(related_objects)`; then the parent create. -/
def storeProfileCreateBody (outcome : ParentOutcome) (ctx : Ctx)
    (validated : List (String × Value)) (db : DB) :
    Except PyError StoreProfileRec × DB :=
  match ctx.request with
  | none => (Except.error (PyError.keyError "request"), db)
  | some req =>
    let user := req.user
    if user.is_authenticated && userHasProfile db user.uid then
      (Except.error (PyError.validationError "user already has a StoreProfile!"),
       db)
    else
      let split := update_flattened_field user.uid validated db
      let merged := dictUpdate split.1 [("user", Value.userRef user.uid)]
      superCreateStoreProfile outcome user.uid merged split.2

/-- `StoreProfileSerializer.create` with its `@transaction.atomic`
decorator. -/
def storeProfileCreate (outcome : ParentOutcome) (ctx : Ctx)
    (validated : List (String × Value)) (db : DB) :
    Except PyError StoreProfileRec × DB :=
  atomic (storeProfileCreateBody outcome ctx validated) db

/-- A `Category` row together with its children (the inverse of the parent
reference).  The storage layer guarantees acyclicity; the inductive type
captures exactly the acyclic trees. -/
inductive Category where
  | node : String → String → List Category → Category

/-- JSON-like serializer output. -/
inductive Rendered where
  | str : String → Rendered
  | arr : List Rendered → Rendered
  | obj : List (String × Rendered) → Rendered

mutual

/-- `CategorySerializer`: renders `Meta.fields = ('name', 'slug', 'children')`
where `children` is `RecursiveField(many=True)` — the identical schema
applied to every child.  Totality of this definition is the termination
guarantee on acyclic trees of arbitrary depth. -/
def serializeCategory : Category → Rendered
  | Category.node n s cs =>
    Rendered.obj [("name", Rendered.str n), ("slug", Rendered.str s),
                  ("children", Rendered.arr (serializeCategoryList cs))]

/-- `RecursiveField(many=True)`: serialize each child in order. -/
def serializeCategoryList : List Category → List Rendered
  | [] => []
  | c :: cs => serializeCategory c :: serializeCategoryList cs

end

mutual

/-- Node count of a category tree. -/
def categoryCount : Category → Nat
  | Category.node _ _ cs => 1 + categoryCountList cs

/-- Node count of a forest. -/
def categoryCountList : List Category → Nat
  | [] => 0
  | c :: cs => categoryCount c + categoryCountList cs

end

mutual

/-- Number of object nodes in rendered output. -/
def renderedObjCount : Rendered → Nat
  | Rendered.str _ => 0
  | Rendered.arr xs => renderedObjCountList xs
  | Rendered.obj kvs => 1 + renderedObjCountKvs kvs

/-- Number of object nodes in a rendered list. -/
def renderedObjCountList : List Rendered → Nat
  | [] => 0
  | x :: xs => renderedObjCount x + renderedObjCountList xs

/-- Number of object nodes under an object's key/value pairs. -/
def renderedObjCountKvs : List (String × Rendered) → Nat
  | [] => 0
  | kv :: kvs => renderedObjCount kv.2 + renderedObjCountKvs kvs

end

mutual

/-- Every object node of the rendered output exposes exactly the keys
`name`, `slug`, `children`, in declared field order. -/
def renderedKeysOk : Rendered → Bool
  | Rendered.str _ => true
  | Rendered.arr xs => renderedKeysOkList xs
  | Rendered.obj kvs =>
    (kvs.map Prod.fst == ["name", "slug", "children"]) && renderedKeysOkKvs kvs

/-- `renderedKeysOk` over a rendered list. -/
def renderedKeysOkList : List Rendered → Bool
  | [] => true
  | x :: xs => renderedKeysOk x && renderedKeysOkList xs

/-- `renderedKeysOk` over an object's key/value pairs. -/
def renderedKeysOkKvs : List (String × Rendered) → Bool
  | [] => true
  | kv :: kvs => renderedKeysOk kv.2 && renderedKeysOkKvs kvs

end

/-- The rendered children of a rendered category object (the value of its
third, `children`, key). -/
def renderedChildren : Rendered → List Rendered
  | Rendered.obj [_, _, (_, Rendered.arr xs)] => xs
  | _ => []

/-- Complete binary category tree: `categoryFull d` has depth `d + 1` and
`2 ^ (d + 1) - 1` nodes. -/
def categoryFull : Nat → Category
  | 0 => Category.node "leaf" "leaf-slug" []
  | d + 1 => Category.node "cat" "cat-slug" [categoryFull d, categoryFull d]

theorem find?_map_set (d : List (String × Value)) (k : String) (v : Value) :
    (d.map (fun kv => if kv.1 == k then (k, v) else kv)).find?
        (fun kv => kv.1 == k) =
      if d.any (fun kv => kv.1 == k) then some (k, v) else none := by
  induction d with
  | nil => rfl
  | cons hd tl ih =>
    by_cases h : hd.1 = k
    · rw [List.map_cons, if_pos (by simpa using h)]
      rw [List.find?_cons_of_pos _ (by simp)]
      simp [List.any_cons, h]
    · rw [List.map_cons, if_neg (by simpa using h)]
      rw [List.find?_cons_of_neg _ (by simpa using h)]
      rw [ih, List.any_cons]
      have hb : (hd.1 == k) = false := by simpa using h
      rw [hb, Bool.false_or]

/-- After `d[k] = v`, looking up `k` yields `v`. -/
theorem dictGet_dictSet (d : List (String × Value)) (k : String) (v : Value) :
    dictGet (dictSet d k v) k = some v := by
  unfold dictGet dictSet
  by_cases h : d.any (fun kv => kv.1 == k)
  · rw [if_pos h, find?_map_set, if_pos h]
    rfl
  · rw [if_neg h, List.find?_append]
    have hnone : d.find? (fun kv => kv.1 == k) = none := by
      rw [List.find?_eq_none]
      intro x hx hxk
      exact h (List.any_eq_true.mpr ⟨x, hx, hxk⟩)
    rw [hnone]
    simp

/-- C1: whatever value the client supplies for `'seller'`, a create through
`ProductNestedSerializer` persists the current actor's own profile in the
owner field: `create` resolves `{'seller': request.user.profile}` and merges
it into the validated payload, overwriting any client value, before
delegating to `ModelSerializer.create`. -/
theorem productCreate_owner_authoritative (ctx : Ctx) (req : Request)
    (p : Profile) (validated : List (String × Value))
    (hreq : ctx.request = some req) (hp : req.user.profile = some p) :
    ∃ rec, productNestedCreate ctx validated = Except.ok rec ∧
      dictGet rec.fields "seller" = some (Value.profRef p) := by
  refine ⟨{ fields := dictSet validated "seller" (Value.profRef p) }, ?_, ?_⟩
  · unfold productNestedCreate setOwnProfileCreate get_profile_kwargs
    rw [hreq]
    simp only [get_profile_field_name, productMixinConfig, hp]
    rfl
  · exact dictGet_dictSet validated "seller" (Value.profRef p)

/-- C1 witness: actor with profile 3 submits a foreign profile 99 as
`seller`; the persisted row's `seller` is profile 3. -/
theorem productCreate_owner_authoritative_witness :
    ∃ rec, productNestedCreate { request := some { user := ⟨7, true, some ⟨3⟩⟩ } }
        [("seller", Value.profRef ⟨99⟩), ("title", Value.str "carrots")] =
          Except.ok rec ∧
      dictGet rec.fields "seller" = some (Value.profRef ⟨3⟩) :=
  productCreate_owner_authoritative _ { user := ⟨7, true, some ⟨3⟩⟩ } ⟨3⟩ _ rfl rfl

/-- C5: a mixin user with no `Meta.profile_field_name` and no overriding
resolver fails at instance construction (`__init__` calls the resolver) with
`ImproperlyConfigured` — a configuration error, never a request-time
validation error. -/
theorem mixinInit_unconfigured_raises (cfg : MixinConfig)
    (hmeta : cfg.metaProfileFieldName = none)
    (hover : cfg.overrideFieldName = none) :
    mixinInit cfg = Except.error (PyError.improperlyConfigured
      "must set Meta.profile_field_name or override get_profile_field_name()") ∧
    ∀ m, mixinInit cfg ≠ Except.error (PyError.validationError m) := by
  have h : mixinInit cfg = Except.error (PyError.improperlyConfigured
      "must set Meta.profile_field_name or override get_profile_field_name()") := by
    unfold mixinInit get_profile_field_name
    rw [hover, hmeta]
    rfl
  refine ⟨h, ?_⟩
  intro m hc
  rw [h] at hc
  cases hc

/-- C5 witness: the fully undeclared configuration raises
`ImproperlyConfigured` at construction. -/
theorem mixinInit_unconfigured_raises_witness :
    mixinInit { metaProfileFieldName := none, overrideFieldName := none } =
      Except.error (PyError.improperlyConfigured
        "must set Meta.profile_field_name or override get_profile_field_name()") :=
  (mixinInit_unconfigured_raises
    { metaProfileFieldName := none, overrideFieldName := none } rfl rfl).1

/-- C10: owner attachment presupposes an authenticated actor with a profile.
With no `'request'` key in the context the mixin's create raises `KeyError`;
with an actor that has no profile it raises the attribute-resolution error —
in both cases an undeclared error kind, not a `ValidationError` and not
`ImproperlyConfigured`. -/
theorem productCreate_undeclared_errors (ctx : Ctx)
    (validated : List (String × Value)) :
    (ctx.request = none →
      productNestedCreate ctx validated =
        Except.error (PyError.keyError "request")) ∧
    (∀ req, ctx.request = some req → req.user.profile = none →
      productNestedCreate ctx validated = Except.error PyError.attributeError) := by
  constructor
  · intro h
    unfold productNestedCreate setOwnProfileCreate get_profile_kwargs
    rw [h]
    rfl
  · intro req hreq hp
    unfold productNestedCreate setOwnProfileCreate get_profile_kwargs
    rw [hreq]
    simp only [get_profile_field_name, productMixinConfig, hp]
    rfl

/-- C10 witness: a context without a request raises `KeyError`; an
authenticated user without a profile raises the attribute error. -/
theorem productCreate_undeclared_errors_witness :
    productNestedCreate { request := none } [] =
      Except.error (PyError.keyError "request") ∧
    productNestedCreate { request := some { user := ⟨1, true, none⟩ } } [] =
      Except.error PyError.attributeError :=
  ⟨(productCreate_undeclared_errors { request := none } []).1 rfl,
   (productCreate_undeclared_errors
      { request := some { user := ⟨1, true, none⟩ } } []).2
      { user := ⟨1, true, none⟩ } rfl rfl⟩

/-- C6: `is_self` is true iff the current actor's profile and the serialized
profile denote the same persisted entity; an absent request, or an actor
without a profile, yields `false` (and, the function being total, never an
error); a distinct actor profile also yields `false`. -/
theorem get_is_self_correct (ctx : Ctx) (profile : Profile) :
    (get_is_self ctx profile = true ↔ actorProfile ctx = some profile) ∧
    (ctx.request = none → get_is_self ctx profile = false) ∧
    (∀ req, ctx.request = some req → req.user.profile = none →
      get_is_self ctx profile = false) ∧
    (∀ q, actorProfile ctx = some q → q ≠ profile →
      get_is_self ctx profile = false) := by
  unfold get_is_self actorProfile
  cases hreq : ctx.request with
  | none => simp
  | some req =>
    refine ⟨?_, ?_, ?_, ?_⟩
    · show (some profile == req.user.profile) = true ↔
        req.user.profile = some profile
      generalize req.user.profile = mp
      cases mp with
      | none => simp
      | some v =>
        simp only [beq_iff_eq, Option.some.injEq]
        exact eq_comm
    · intro h
      exact Option.noConfusion h
    · intro r hr hpn
      cases hr
      show (some profile == req.user.profile) = false
      rw [hpn]
      rfl
    · intro q hq hne
      have hq2 : req.user.profile = some q := hq
      show (some profile == req.user.profile) = false
      rw [hq2]
      simp only [beq_eq_false_iff_ne, ne_eq, Option.some.injEq]
      exact Ne.symm hne

/-- C6 witness: matching profile yields `true`; absent request yields `false`;
actor without profile yields `false`. -/
theorem get_is_self_correct_witness :
    get_is_self { request := some { user := ⟨1, true, some ⟨5⟩⟩ } } ⟨5⟩ = true ∧
    get_is_self { request := none } ⟨5⟩ = false ∧
    get_is_self { request := some { user := ⟨2, true, none⟩ } } ⟨5⟩ = false :=
  ⟨(get_is_self_correct { request := some { user := ⟨1, true, some ⟨5⟩⟩ } } ⟨5⟩).1.mpr
      rfl,
   (get_is_self_correct { request := none } ⟨5⟩).2.1 rfl,
   (get_is_self_correct { request := some { user := ⟨2, true, none⟩ } } ⟨5⟩).2.2.1
      { user := ⟨2, true, none⟩ } rfl rfl⟩

/-- C8: the creation variant's field set is the base set minus `products`
with every writable (non-read-only) field marked required; the nested
variant's field set is the base set minus `products`; the detail variant's
field set is the list variant's field set plus `description`. -/
theorem schema_variant_field_sets :
    storeProfileCreateFields.toFinset =
      storeProfileFields.toFinset \ {"products"} ∧
    (storeProfileCreateFields.filter
        (fun k => !(storeProfileReadOnlyFields.contains k))).all
      (fun k => storeProfileCreateExtraKwargs.contains (k, true)) = true ∧
    storeProfileNestedFields.toFinset =
      storeProfileFields.toFinset \ {"products"} ∧
    productDetailFields.toFinset =
      productListFields.toFinset ∪ {"description"} := by
  refine ⟨by decide, by decide, by decide, by decide⟩

/-- C9: the FlattenSpec invariant for `StoreProfileSerializer`: flatten
groups are pairwise disjoint, their field names are disjoint from the
parent's own fields, and all the names together (group names plus own
fields) are exactly the declared field set minus the purely-computed
fields. -/
theorem flattenSpec_invariant :
    List.Pairwise (fun g h => ∀ f ∈ g.2, f ∉ h.2) flatten_fields ∧
    flatten_fields.all
      (fun g => g.2.all (fun f => !(storeProfileOwnFields.contains f))) = true ∧
    ((flatten_fields.map (fun g => g.2)).flatten ++
        storeProfileOwnFields).toFinset =
      storeProfileFields.toFinset \ storeProfileComputedFields.toFinset := by
  refine ⟨List.pairwise_singleton _ _, by decide, by decide⟩

/-- C3: over `StoreProfileSerializer`'s declared flatten groups, splitting a
flat payload and re-merging the declared field names by group reconstructs
the original payload up to permutation — so the flat key set is
reconstructed exactly: no field lost, none duplicated, none renamed. -/
theorem flatten_unflatten_inverse (payload : List (String × Value)) :
    List.Perm
      (mergePayload (splitPayload flatten_fields payload).1
        (splitPayload flatten_fields payload).2) payload ∧
    ((mergePayload (splitPayload flatten_fields payload).1
        (splitPayload flatten_fields payload).2).map Prod.fst).toFinset =
      (payload.map Prod.fst).toFinset ∧
    ((payload.map Prod.fst).Nodup →
      ((mergePayload (splitPayload flatten_fields payload).1
          (splitPayload flatten_fields payload).2).map Prod.fst).Nodup) := by
  have hperm : List.Perm
      (mergePayload (splitPayload flatten_fields payload).1
        (splitPayload flatten_fields payload).2) payload := by
    have h := List.filter_append_perm
      (fun kv : String × Value => !(user_fields.contains kv.1)) payload
    simp only [Bool.not_not] at h
    unfold mergePayload splitPayload flatten_fields
    simp only [List.any_cons, List.any_nil, Bool.or_false, List.map_cons,
      List.map_nil, List.flatten, List.append_nil]
    exact h
  have hkeys : List.Perm
      ((mergePayload (splitPayload flatten_fields payload).1
        (splitPayload flatten_fields payload).2).map Prod.fst)
      (payload.map Prod.fst) := hperm.map Prod.fst
  exact ⟨hperm, List.toFinset_eq_of_perm _ _ hkeys,
    fun hnd => hkeys.nodup_iff.mpr hnd⟩

/-- C3 witness: a concrete payload mixing user-group fields and parent
fields, with distinct keys, splits and re-merges without losing,
duplicating, or renaming a key. -/
theorem flatten_unflatten_inverse_witness :
    ((mergePayload
        (splitPayload flatten_fields
          [("email", Value.str "e"), ("phone", Value.str "p"),
           ("first_name", Value.str "f"), ("city", Value.str "c")]).1
        (splitPayload flatten_fields
          [("email", Value.str "e"), ("phone", Value.str "p"),
           ("first_name", Value.str "f"), ("city", Value.str "c")]).2).map
      Prod.fst).Nodup :=
  (flatten_unflatten_inverse
    [("email", Value.str "e"), ("phone", Value.str "p"),
     ("first_name", Value.str "f"), ("city", Value.str "c")]).2.2 (by decide)

/-- C2: all related-entity writes and the parent write of
`StoreProfileSerializer.create` run in one atomic transaction: whenever the
create fails — for any failure point, including a parent-create failure
after the related `user` sub-entity write has already modified the
database — the resulting state is exactly the initial database, so no
related write and no parent row persists. -/
theorem storeProfileCreate_atomic (outcome : ParentOutcome) (ctx : Ctx)
    (validated : List (String × Value)) (db : DB) (e : PyError)
    (hfail : (storeProfileCreate outcome ctx validated db).1 = Except.error e) :
    (storeProfileCreate outcome ctx validated db).2 = db ∧
    (storeProfileCreate outcome ctx validated db).2.storeProfiles =
      db.storeProfiles ∧
    (storeProfileCreate outcome ctx validated db).2.userAttrs = db.userAttrs := by
  unfold storeProfileCreate atomic at hfail ⊢
  cases h : storeProfileCreateBody outcome ctx validated db with
  | mk r db' =>
    rw [h] at hfail
    cases r with
    | error e' => exact ⟨rfl, rfl, rfl⟩
    | ok a => exact Except.noConfusion hfail

/-- C2 witness: with a parent-create failure configured, a payload holding a
flattened user field, and an authenticated user without an existing
profile, the create fails after the sub-entity write (the un-wrapped body
really changes the user row), yet the transactional create returns the
initial database unchanged. -/
theorem storeProfileCreate_atomic_witness :
    (storeProfileCreateBody ParentOutcome.fails
        { request := some { user := ⟨1, true, none⟩ } }
        [("first_name", Value.str "Ada"), ("phone", Value.str "1")]
        { userAttrs := [(1, [("first_name", Value.str "old")])],
          storeProfiles := [] }).2 ≠
      { userAttrs := [(1, [("first_name", Value.str "old")])],
        storeProfiles := [] } ∧
    (storeProfileCreate ParentOutcome.fails
        { request := some { user := ⟨1, true, none⟩ } }
        [("first_name", Value.str "Ada"), ("phone", Value.str "1")]
        { userAttrs := [(1, [("first_name", Value.str "old")])],
          storeProfiles := [] }).2 =
      { userAttrs := [(1, [("first_name", Value.str "old")])],
        storeProfiles := [] } :=
  ⟨by decide,
   (storeProfileCreate_atomic ParentOutcome.fails
      { request := some { user := ⟨1, true, none⟩ } }
      [("first_name", Value.str "Ada"), ("phone", Value.str "1")]
      { userAttrs := [(1, [("first_name", Value.str "old")])],
        storeProfiles := [] }
      PyError.databaseError rfl).1⟩

/-- C4: an authenticated actor that already has exactly one StoreProfile
and attempts a second create through `StoreProfileSerializer` receives the
request-time `ValidationError` (not a server error), nothing is persisted,
and the stored profile count for that actor remains 1. -/
theorem storeProfileCreate_duplicate_rejected (outcome : ParentOutcome)
    (ctx : Ctx) (req : Request) (validated : List (String × Value)) (db : DB)
    (hreq : ctx.request = some req) (hauth : req.user.is_authenticated = true)
    (hcount : spCountFor db req.user.uid = 1) :
    (storeProfileCreate outcome ctx validated db).1 =
      Except.error (PyError.validationError "user already has a StoreProfile!") ∧
    (storeProfileCreate outcome ctx validated db).2 = db ∧
    spCountFor (storeProfileCreate outcome ctx validated db).2 req.user.uid =
      1 := by
  have hhas : userHasProfile db req.user.uid = true := by
    unfold userHasProfile
    unfold spCountFor at hcount
    obtain ⟨a, ha⟩ := List.length_eq_one.mp hcount
    have hmem : a ∈ db.storeProfiles.filter
        (fun sp => sp.userId == req.user.uid) := by
      rw [ha]
      exact List.mem_singleton_self a
    have hsplit := List.mem_filter.mp hmem
    exact List.any_eq_true.mpr ⟨a, hsplit.1, hsplit.2⟩
  have hbody : storeProfileCreateBody outcome ctx validated db =
      (Except.error (PyError.validationError "user already has a StoreProfile!"),
       db) := by
    unfold storeProfileCreateBody
    rw [hreq]
    simp only [hauth, hhas, Bool.and_self, if_true]
  have hmain : storeProfileCreate outcome ctx validated db =
      (Except.error (PyError.validationError "user already has a StoreProfile!"),
       db) := by
    unfold storeProfileCreate atomic
    rw [hbody]
  rw [hmain]
  exact ⟨rfl, rfl, hcount⟩

/-- C4 witness: user 1 already owns StoreProfile 10; a second create is
rejected with the `ValidationError`, the database is unchanged, and the
count stays 1. -/
theorem storeProfileCreate_duplicate_rejected_witness :
    (storeProfileCreate (ParentOutcome.succeeds 11)
        { request := some { user := ⟨1, true, some ⟨10⟩⟩ } }
        [("phone", Value.str "1")]
        { userAttrs := [],
          storeProfiles := [{ spid := 10, userId := 1, attrs := [] }] }).1 =
      Except.error (PyError.validationError "user already has a StoreProfile!") ∧
    (storeProfileCreate (ParentOutcome.succeeds 11)
        { request := some { user := ⟨1, true, some ⟨10⟩⟩ } }
        [("phone", Value.str "1")]
        { userAttrs := [],
          storeProfiles := [{ spid := 10, userId := 1, attrs := [] }] }).2 =
      { userAttrs := [],
        storeProfiles := [{ spid := 10, userId := 1, attrs := [] }] } :=
  ⟨(storeProfileCreate_duplicate_rejected (ParentOutcome.succeeds 11)
      { request := some { user := ⟨1, true, some ⟨10⟩⟩ } }
      { user := ⟨1, true, some ⟨10⟩⟩ } [("phone", Value.str "1")]
      { userAttrs := [],
        storeProfiles := [{ spid := 10, userId := 1, attrs := [] }] }
      rfl rfl (by decide)).1,
   (storeProfileCreate_duplicate_rejected (ParentOutcome.succeeds 11)
      { request := some { user := ⟨1, true, some ⟨10⟩⟩ } }
      { user := ⟨1, true, some ⟨10⟩⟩ } [("phone", Value.str "1")]
      { userAttrs := [],
        storeProfiles := [{ spid := 10, userId := 1, attrs := [] }] }
      rfl rfl (by decide)).2.1⟩

mutual

theorem count_eq (c : Category) :
    renderedObjCount (serializeCategory c) = categoryCount c := by
  cases c with
  | node n s cs =>
    simp [serializeCategory, renderedObjCount, categoryCount,
          renderedObjCountKvs, renderedObjCountList, count_eq_list cs]

theorem count_eq_list (cs : List Category) :
    renderedObjCountList (serializeCategoryList cs) = categoryCountList cs := by
  cases cs with
  | nil => rfl
  | cons c cs =>
    simp [serializeCategoryList, renderedObjCountList, categoryCountList,
          count_eq c, count_eq_list cs]

end

mutual

theorem keys_ok (c : Category) :
    renderedKeysOk (serializeCategory c) = true := by
  cases c with
  | node n s cs =>
    simp [serializeCategory, renderedKeysOk, renderedKeysOkKvs, keys_ok_list cs]

theorem keys_ok_list (cs : List Category) :
    renderedKeysOkList (serializeCategoryList cs) = true := by
  cases cs with
  | nil => rfl
  | cons c cs =>
    simp [serializeCategoryList, renderedKeysOkList, keys_ok c, keys_ok_list cs]

end

theorem serializeCategoryList_eq_map (cs : List Category) :
    serializeCategoryList cs = cs.map serializeCategory := by
  induction cs with
  | nil => rfl
  | cons c cs ih => simp [serializeCategoryList, ih]

theorem children_eq (n s : String) (cs : List Category) :
    renderedChildren (serializeCategory (Category.node n s cs)) =
      cs.map serializeCategory := by
  simp [serializeCategory, renderedChildren, serializeCategoryList_eq_map]

/-- C7: the recursive category serializer is total on (inductively acyclic)
category trees of arbitrary depth — its Lean embedding is a terminating
function — and it applies the identical schema at every depth: the output
has exactly the node count of the input tree, every rendered node exposes
exactly the fields `name`, `slug`, `children`, and the rendered children
are the recursively serialized source children (same shape). -/
theorem categorySerializer_correct (c : Category) (n s : String)
    (cs : List Category) :
    renderedObjCount (serializeCategory c) = categoryCount c ∧
    renderedKeysOk (serializeCategory c) = true ∧
    renderedChildren (serializeCategory (Category.node n s cs)) =
      cs.map serializeCategory :=
  ⟨count_eq c, keys_ok c, children_eq n s cs⟩

/-- Concrete check from the spec's testable property: a category tree of
depth 5 with branching factor 2 (31 nodes) serializes to 31 rendered nodes,
all exposing exactly `name`, `slug`, `children`. -/
theorem categoryFull_depth5_serializes :
    categoryCount (categoryFull 4) = 31 ∧
    renderedObjCount (serializeCategory (categoryFull 4)) = 31 ∧
    renderedKeysOk (serializeCategory (categoryFull 4)) = true := by
  refine ⟨by decide, by decide, by decide⟩
